import Mathlib

/-!
Verification development for the Archadium text RPG.

The definitions below are a shallow embedding of the Python sources:
`archadium/engine/state.py` (GameState), `archadium/entities/items.py` (Item),
`archadium/entities/player.py` (Player), `archadium/combat/enemies.py` (Enemy),
`archadium/combat/battle.py` (Battle), `archadium/world/room.py` (Exit, Room)
and the movement logic of `archadium/app.py` (ExploreScene._cmd_move).

Modelling conventions:
- numeric stats are modelled as `Nat` (all values occurring in play are
  non-negative integers; Python's `max(0, hp - actual)` coincides with
  truncated `Nat` subtraction on such values, and `max(1, a - d)` over `Int`
  coincides with `max 1 (a - d)` over `Nat`);
- Python dicts keyed by strings become association lists whose update
  replaces the first matching key (dict keys are unique, so lookup of the
  first match agrees with dict lookup);
- `int(xp_to_level * 1.5)` becomes `3 * xp_to_level / 2` with `Nat`
  division: for every value the game can reach the float product `t * 1.5`
  is exact (one fractional bit, far below 2^52), so Python's truncation
  equals the real floor `3t/2`;
- Python's `if self.state.equipped_weapon:` optional-check is modelled as a
  match on `Option String` (item ids are non-empty strings, so Python string
  truthiness agrees with the `Option` test);
- console output, pauses and the event bus are pure presentation and carry
  no game state, so they are dropped; functions that print a message and
  mutate state return the message (or an outcome tag) together with the
  new state.
-/

/-- Association-list update mirroring Python dict assignment
`self.flags[flag] = value`: replace the first binding of the key, or append
a new binding. -/
def setAssoc (l : List (String × Bool)) (k : String) (v : Bool) : List (String × Bool) :=
  match l with
  | [] => [(k, v)]
  | (k', v') :: rest => if k' = k then (k, v) :: rest else (k', v') :: setAssoc rest k v

/-- Embedding of the `GameState` dataclass of `archadium/engine/state.py`,
with the same fields and the same dataclass defaults. -/
structure GameState where
  player_name : String := "Hero"
  current_room : String := "village_square"
  hp : Nat := 100
  max_hp : Nat := 100
  attack : Nat := 10
  defense : Nat := 5
  level : Nat := 1
  xp : Nat := 0
  xp_to_level : Nat := 100
  gold : Nat := 0
  inventory : List String := []
  equipped_weapon : Option String := none
  equipped_armor : Option String := none
  flags : List (String × Bool) := []
  defeated_enemies : List String := []
deriving DecidableEq

/-- `GameState.set_flag`: `self.flags[flag] = value`. -/
def GameState.set_flag (s : GameState) (flag : String) (value : Bool) : GameState :=
  { s with flags := setAssoc s.flags flag value }

/-- `GameState.has_flag`: `self.flags.get(flag, False)`. -/
def GameState.has_flag (s : GameState) (flag : String) : Bool :=
  (s.flags.lookup flag).getD false

/-- `GameState.add_xp`: add XP, and on `xp >= xp_to_level` level up once
(`xp -= xp_to_level`, `level += 1`, `xp_to_level = int(xp_to_level * 1.5)`,
`max_hp += 10`, `hp = max_hp`, `attack += 2`, `defense += 1`).  Returns the
new state together with the `bool` the Python method returns. -/
def GameState.add_xp (s : GameState) (amount : Nat) : GameState × Bool :=
  let s1 := { s with xp := s.xp + amount }
  if s1.xp_to_level ≤ s1.xp then
    ({ s1 with
        xp := s1.xp - s1.xp_to_level
        level := s1.level + 1
        xp_to_level := 3 * s1.xp_to_level / 2
        max_hp := s1.max_hp + 10
        hp := s1.max_hp + 10
        attack := s1.attack + 2
        defense := s1.defense + 1 }, true)
  else
    (s1, false)

/-- `GameState.heal`: `self.hp = min(self.hp + amount, self.max_hp)`;
returns the new state and the actual amount healed (`self.hp - before`). -/
def GameState.heal (s : GameState) (amount : Nat) : GameState × Nat :=
  let newHp := min (s.hp + amount) s.max_hp
  ({ s with hp := newHp }, newHp - s.hp)

/-- `GameState.take_damage`: `actual = max(1, amount - self.defense)`;
`self.hp = max(0, self.hp - actual)`; returns the new state and `actual`. -/
def GameState.take_damage (s : GameState) (amount : Nat) : GameState × Nat :=
  let actual := max 1 (amount - s.defense)
  ({ s with hp := max 0 (s.hp - actual) }, actual)

/-- `GameState.is_alive`: `self.hp > 0`. -/
def GameState.is_alive (s : GameState) : Bool :=
  decide (0 < s.hp)

/-- The default `GameState()` produced by the dataclass defaults. -/
def sInit : GameState := {}

/-- Embedding of the `Item` dataclass of `archadium/entities/items.py`
(the `attack_type` field, a purely descriptive string, is dropped). -/
structure Item where
  item_id : String
  name : String
  description : String
  item_type : String := "misc"
  attack_bonus : Nat := 0
  defense_bonus : Nat := 0
  heal_amount : Nat := 0
  value : Nat := 0
  stackable : Bool := false
deriving DecidableEq

/-- An `ItemRegistry` after loading: `ItemRegistry.get` is lookup by id. -/
abbrev ItemRegistry : Type := String → Option Item

/-- `Player.effective_attack`: the base attack stat plus the equipped
weapon's `attack_bonus` when a weapon is equipped and its template is found
in the registry, else plus 0. -/
def effective_attack (reg : ItemRegistry) (s : GameState) : Nat :=
  let bonus :=
    match s.equipped_weapon with
    | none => 0
    | some wid =>
      match reg wid with
      | none => 0
      | some weapon => weapon.attack_bonus
  s.attack + bonus

/-- `Player.effective_defense`: the base defense stat plus the equipped
armor's `defense_bonus` when armor is equipped and its template is found in
the registry, else plus 0. -/
def effective_defense (reg : ItemRegistry) (s : GameState) : Nat :=
  let bonus :=
    match s.equipped_armor with
    | none => 0
    | some aid =>
      match reg aid with
      | none => 0
      | some armor => armor.defense_bonus
  s.defense + bonus

/-- `Player.equip` of `archadium/entities/player.py`: requires the item id
in inventory and a registry hit; a weapon (resp. armor) overwrites the
weapon (resp. armor) slot and returns `None`; anything else returns an
error message and leaves the state unchanged. -/
def Player.equip (reg : ItemRegistry) (s : GameState) (item_id : String) :
    Option String × GameState :=
  if item_id ∉ s.inventory then (some "You don\x27t have that item.", s)
  else
    match reg item_id with
    | none => (some "Unknown item.", s)
    | some item =>
      if item.item_type = "weapon" then
        (none, { s with equipped_weapon := some item_id })
      else if item.item_type = "armor" then
        (none, { s with equipped_armor := some item_id })
      else
        (some (item.name ++ " can\x27t be equipped."), s)

/-- `Player.use_item`: a consumable present in inventory is removed
(`list.remove` drops the first occurrence) and, when `heal_amount > 0`,
heals the player; returns the message and the new state. -/
def Player.use_item (reg : ItemRegistry) (s : GameState) (item_id : String) :
    String × GameState :=
  if item_id ∉ s.inventory then ("You don\x27t have that item.", s)
  else
    match reg item_id with
    | none => ("Unknown item.", s)
    | some item =>
      if item.item_type ≠ "consumable" then
        (item.name ++ " can\x27t be used that way.", s)
      else
        let s1 := { s with inventory := s.inventory.erase item_id }
        if 0 < item.heal_amount then
          let (s2, healed) := s1.heal item.heal_amount
          ("You use " ++ item.name ++ " and recover " ++ toString healed ++ " HP!", s2)
        else
          ("You use " ++ item.name ++ ".", s1)

/-- Embedding of the `Enemy` dataclass of `archadium/combat/enemies.py`
(the `ascii_art` display field is dropped). -/
structure Enemy where
  enemy_id : String
  name : String
  description : String
  hp : Nat
  max_hp : Nat
  attack : Nat
  defense : Nat
  xp_reward : Nat := 10
  gold_reward : Nat := 5
deriving DecidableEq

/-- `Enemy.take_damage`: `actual = max(1, amount - self.defense)`;
`self.hp = max(0, self.hp - actual)`; returns the new enemy and `actual`. -/
def Enemy.take_damage (e : Enemy) (amount : Nat) : Enemy × Nat :=
  let actual := max 1 (amount - e.defense)
  ({ e with hp := max 0 (e.hp - actual) }, actual)

/-- `Enemy.is_alive`: `self.hp > 0`. -/
def Enemy.is_alive (e : Enemy) : Bool :=
  decide (0 < e.hp)

/-- The combat-relevant state of a `Battle` of `archadium/combat/battle.py`:
the shared `GameState`, the spawned enemy instance, the one-turn
`defending` flag and the turn counter. -/
structure Battle where
  state : GameState
  enemy : Enemy
  defending : Bool
  turn_count : Nat
deriving DecidableEq

/-- `Battle.__init__`: `defending = False`, `turn_count = 0`. -/
def Battle.init (s : GameState) (e : Enemy) : Battle :=
  ⟨s, e, false, 0⟩

/-- The head of each iteration of `Battle.run`: `self.turn_count += 1`,
executed before the player turn of that iteration. -/
def Battle.start_turn (b : Battle) : Battle :=
  { b with turn_count := b.turn_count + 1 }

/-- The flee success chance computed in `Battle._do_flee`:
`chance = 0.5 + (self.turn_count * 0.05)`, modelled exactly over `ℚ`
(each float involved is exact for every turn count the game reaches). -/
def fleeChance (turn_count : Nat) : ℚ :=
  0.5 + (turn_count : ℚ) * 0.05

/-- `Battle._do_attack`: the enemy takes `player.effective_attack` damage;
returns the updated battle and the damage dealt. -/
def Battle.do_attack (reg : ItemRegistry) (b : Battle) : Battle × Nat :=
  let (e, damage) := b.enemy.take_damage (effective_attack reg b.state)
  ({ b with enemy := e }, damage)

/-- `Battle._do_defend`: `self.defending = True`. -/
def Battle.do_defend (b : Battle) : Battle :=
  { b with defending := true }

/-- `Battle._enemy_turn`: `base_damage = enemy.attack`, halved by floor
division when `self.defending`, then applied through
`GameState.take_damage`; returns the updated battle and the actual damage
taken. -/
def Battle.enemy_turn (b : Battle) : Battle × Nat :=
  let base_damage := b.enemy.attack
  let base_damage := if b.defending then base_damage / 2 else base_damage
  let (s, actual) := b.state.take_damage base_damage
  ({ b with state := s }, actual)

/-- The four turn-consuming resolutions of `Battle._player_turn`: attack,
defend, a successful item use, and a failed flee attempt (a successful flee
ends the battle instead of reaching the enemy turn). -/
inductive CombatAction
  | attack
  | defend
  | use_item (item_id : String)
  | flee_failed
deriving DecidableEq

/-- Whether the action is Defend. -/
def CombatAction.isDefend : CombatAction → Bool
  | .defend => true
  | _ => false

/-- One turn-consuming pass through `Battle._player_turn`: the method first
resets `self.defending = False`, then performs the chosen action. -/
def Battle.player_turn (reg : ItemRegistry) (b : Battle) (a : CombatAction) : Battle :=
  let b1 := { b with defending := false }
  match a with
  | .attack => (b1.do_attack reg).1
  | .defend => b1.do_defend
  | .use_item item_id => { b1 with state := (Player.use_item reg b1.state item_id).2 }
  | .flee_failed => b1

/-- The state mutations of `Battle._victory`: `gold += enemy.gold_reward`,
`add_xp(enemy.xp_reward)`, append `enemy.enemy_id` to `defeated_enemies`,
and `set_flag("defeated_<id>")`. -/
def victory_update (s : GameState) (e : Enemy) : GameState :=
  let s1 := { s with gold := s.gold + e.gold_reward }
  let s2 := (s1.add_xp e.xp_reward).1
  let s3 := { s2 with defeated_enemies := s2.defeated_enemies ++ [e.enemy_id] }
  s3.set_flag ("defeated_" ++ e.enemy_id) true

/-- Embedding of the `Exit` dataclass of `archadium/world/room.py`. -/
structure Exit where
  direction : String
  target_room : String
  description : String := ""
  locked : Bool := false
  required_flag : Option String := none
  lock_message : String := "The way is blocked."
deriving DecidableEq

/-- `Exit.is_accessible`: an unlocked exit is accessible; a locked exit is
accessible exactly when it has a required flag and that flag is set (with
`flags.get(flag, False)` semantics). -/
def Exit.is_accessible (e : Exit) (flags : List (String × Bool)) : Bool :=
  if !e.locked then true
  else
    match e.required_flag with
    | some f => (flags.lookup f).getD false
    | none => false

/-- Embedding of the `Room` dataclass of `archadium/world/room.py`
(the `ascii_art` and `ambient` display fields are dropped). -/
structure Room where
  room_id : String
  name : String
  description : String
  exits : List Exit := []
  items : List String := []
  enemies : List String := []
  npcs : List String := []
  on_enter_flag : Option String := none
deriving DecidableEq

/-- `Room.get_exit`: the first exit whose direction matches. -/
def Room.get_exit (r : Room) (direction : String) : Option Exit :=
  r.exits.find? (fun ex => ex.direction = direction)

/-- A loaded `WorldMap`: `WorldMap.get_room` is lookup by room id. -/
abbrev WorldMap : Type := String → Option Room

/-- The alive-enemy filter used by `ExploreScene` (`_do_look`, `_cmd_move`
and `_cmd_attack`): the room's enemy ids with the ids already recorded in
`state.defeated_enemies` removed. -/
def alive_enemies (room : Room) (s : GameState) : List String :=
  room.enemies.filter (fun eid => !s.defeated_enemies.contains eid)

/-- Outcome tag of one `ExploreScene._cmd_move` invocation. -/
inductive MoveOutcome
  | no_room
  | no_exit
  | locked (msg : String)
  | moved
  | combat (enemy_id : String)
deriving DecidableEq

/-- `ExploreScene._cmd_move` for a given direction: look up the current
room and the exit; an inaccessible exit prints its lock message and leaves
the state untouched; otherwise `current_room` is set to the target,
`_do_look` sets the new room's `on_enter_flag` (when present), and when the
new room has alive enemies the first of them triggers combat. -/
def cmd_move (world : WorldMap) (s : GameState) (direction : String) :
    MoveOutcome × GameState :=
  match world s.current_room with
  | none => (.no_room, s)
  | some room =>
    match room.get_exit direction with
    | none => (.no_exit, s)
    | some exit_obj =>
      if !exit_obj.is_accessible s.flags then
        (.locked exit_obj.lock_message, s)
      else
        let s1 := { s with current_room := exit_obj.target_room }
        match world s1.current_room with
        | none => (.moved, s1)
        | some new_room =>
          let s2 :=
            match new_room.on_enter_flag with
            | some f => s1.set_flag f true
            | none => s1
          match alive_enemies new_room s2 with
          | [] => (.moved, s2)
          | eid :: _ => (.combat eid, s2)

/-- The JSON-representable values a persisted `GameState` document holds.
Python is untyped; these five shapes are exactly the ones `to_dict`
produces, and the decoders below fall back to the dataclass default on a
missing key (a wrongly-shaped value never arises from `to_dict`). -/
inductive PyVal
  | vStr (v : String)
  | vNat (v : Nat)
  | vOptStr (v : Option String)
  | vListStr (v : List String)
  | vFlags (v : List (String × Bool))
deriving DecidableEq

/-- A persisted document: key/value pairs with unique keys (a JSON object). -/
abbrev Doc : Type := List (String × PyVal)

/-- `GameState.to_dict`: the persisted document, one entry per field. -/
def GameState.to_dict (s : GameState) : Doc :=
  [("player_name", .vStr s.player_name),
   ("current_room", .vStr s.current_room),
   ("hp", .vNat s.hp),
   ("max_hp", .vNat s.max_hp),
   ("attack", .vNat s.attack),
   ("defense", .vNat s.defense),
   ("level", .vNat s.level),
   ("xp", .vNat s.xp),
   ("xp_to_level", .vNat s.xp_to_level),
   ("gold", .vNat s.gold),
   ("inventory", .vListStr s.inventory),
   ("equipped_weapon", .vOptStr s.equipped_weapon),
   ("equipped_armor", .vOptStr s.equipped_armor),
   ("flags", .vFlags s.flags),
   ("defeated_enemies", .vListStr s.defeated_enemies)]

/-- The dataclass field names of `GameState`
(`cls.__dataclass_fields__`). -/
def gameStateFieldKeys : List String :=
  ["player_name", "current_room", "hp", "max_hp", "attack", "defense",
   "level", "xp", "xp_to_level", "gold", "inventory", "equipped_weapon",
   "equipped_armor", "flags", "defeated_enemies"]

/-- Decode a string field, defaulting when the key is absent. -/
def dStr (doc : Doc) (k : String) (dflt : String) : String :=
  match doc.lookup k with
  | some (.vStr v) => v
  | _ => dflt

/-- Decode a numeric field, defaulting when the key is absent. -/
def dNat (doc : Doc) (k : String) (dflt : Nat) : Nat :=
  match doc.lookup k with
  | some (.vNat v) => v
  | _ => dflt

/-- Decode an optional-string field (dataclass default `None`). -/
def dOptStr (doc : Doc) (k : String) : Option String :=
  match doc.lookup k with
  | some (.vOptStr v) => v
  | _ => none

/-- Decode a string-list field (dataclass default `[]`). -/
def dListStr (doc : Doc) (k : String) : List String :=
  match doc.lookup k with
  | some (.vListStr v) => v
  | _ => []

/-- Decode the flags field (dataclass default `{}`). -/
def dFlags (doc : Doc) (k : String) : List (String × Bool) :=
  match doc.lookup k with
  | some (.vFlags v) => v
  | _ => []

/-- `GameState.from_dict`: keep only the keys that are dataclass fields and
construct the state, applying the dataclass default for each missing
field. -/
def GameState.from_dict (doc : Doc) : GameState :=
  { player_name := dStr doc "player_name" "Hero"
    current_room := dStr doc "current_room" "village_square"
    hp := dNat doc "hp" 100
    max_hp := dNat doc "max_hp" 100
    attack := dNat doc "attack" 10
    defense := dNat doc "defense" 5
    level := dNat doc "level" 1
    xp := dNat doc "xp" 0
    xp_to_level := dNat doc "xp_to_level" 100
    gold := dNat doc "gold" 0
    inventory := dListStr doc "inventory"
    equipped_weapon := dOptStr doc "equipped_weapon"
    equipped_armor := dOptStr doc "equipped_armor"
    flags := dFlags doc "flags"
    defeated_enemies := dListStr doc "defeated_enemies" }

/-- `GameState.load`: the save directory is modelled as a map from slot
name to the parsed document of `<slot>.json` when that file exists; a
missing file returns `None`, otherwise the state is `from_dict` of the
parsed document. -/
def GameState.load (fs : String → Option Doc) (slot : String) : Option GameState :=
  match fs slot with
  | none => none
  | some data => some (GameState.from_dict data)

/-- The gameplay operations that mutate the session's `GameState` (combat
damage and healing, xp and gold awards, flag setting, inventory and
equipment changes from `Player`, battle victory bookkeeping, and movement);
new-game and load replace the state wholesale and are not state
mutations. -/
inductive Op
  | take_damage (n : Nat)
  | heal (n : Nat)
  | add_xp (n : Nat)
  | set_flag (k : String) (v : Bool)
  | add_gold (n : Nat)
  | add_item (item_id : String)
  | remove_item (item_id : String)
  | use_item (item_id : String)
  | equip (item_id : String)
  | unequip_weapon
  | unequip_armor
  | victory (e : Enemy)
  | move (world : WorldMap) (direction : String)

/-- The effect of each gameplay operation on the `GameState`, each case
delegating to the embedded source function. -/
def Op.apply (reg : ItemRegistry) (op : Op) (s : GameState) : GameState :=
  match op with
  | .take_damage n => (s.take_damage n).1
  | .heal n => (s.heal n).1
  | .add_xp n => (s.add_xp n).1
  | .set_flag k v => s.set_flag k v
  | .add_gold n => { s with gold := s.gold + n }
  | .add_item item_id => { s with inventory := s.inventory ++ [item_id] }
  | .remove_item item_id => { s with inventory := s.inventory.erase item_id }
  | .use_item item_id => (Player.use_item reg s item_id).2
  | .equip item_id => (Player.equip reg s item_id).2
  | .unequip_weapon => { s with equipped_weapon := none }
  | .unequip_armor => { s with equipped_armor := none }
  | .victory e => victory_update s e
  | .move world direction => (cmd_move world s direction).2

/-!
Concrete fixtures: a small registry, world and states of the shapes the
YAML content files produce, used to instantiate the theorems below.
-/

/-- A concrete armor template. -/
def ironArmor : Item :=
  { item_id := "iron_armor", name := "Iron Armor", description := "Sturdy plates.",
    item_type := "armor", defense_bonus := 3, value := 30 }

/-- A concrete weapon template. -/
def ironSword : Item :=
  { item_id := "iron_sword", name := "Iron Sword", description := "A solid blade.",
    item_type := "weapon", attack_bonus := 4, value := 40 }

/-- A concrete consumable template. -/
def healingPotion : Item :=
  { item_id := "healing_potion", name := "Healing Potion", description := "Restores HP.",
    item_type := "consumable", heal_amount := 20, value := 10 }

/-- A concrete loaded item registry holding the three templates above. -/
def regX : ItemRegistry := fun item_id =>
  if item_id = "iron_armor" then some ironArmor
  else if item_id = "iron_sword" then some ironSword
  else if item_id = "healing_potion" then some healingPotion
  else none

/-- A concrete player state with armor equipped. -/
def sX : GameState :=
  { defense := 5, equipped_armor := some "iron_armor",
    inventory := ["iron_sword", "iron_armor", "healing_potion"] }

/-- A concrete enemy instance. -/
def eX : Enemy :=
  { enemy_id := "goblin", name := "Goblin", description := "A sneering pest.",
    hp := 30, max_hp := 30, attack := 8, defense := 2 }

/-- The battle spawned from `sX` and `eX`. -/
def bX : Battle := Battle.init sX eX

/-- `sX` after the goblin has been recorded as defeated. -/
def sDef : GameState := { sX with defeated_enemies := ["goblin"] }

/-- A room whose enemy list names the goblin. -/
def roomDen : Room :=
  { room_id := "den", name := "Goblin Den", description := "A reeking cave.",
    enemies := ["goblin"] }

/-- A locked exit gated on the `gate_key` flag. -/
def gateExit : Exit :=
  { direction := "north", target_room := "vault", locked := true,
    required_flag := some "gate_key", lock_message := "An iron gate bars the way." }

/-- A room whose only exit is the locked gate. -/
def roomHall : Room :=
  { room_id := "hall", name := "Great Hall", description := "Vaulted stone.",
    exits := [gateExit] }

/-- A concrete world map holding the two rooms above. -/
def worldX : WorldMap := fun room_id =>
  if room_id = "hall" then some roomHall
  else if room_id = "den" then some roomDen
  else none

/-- A player state standing in the hall with no flags set. -/
def sHall : GameState := { current_room := "hall" }

/-- A save directory with no files. -/
def fsEmpty : String → Option Doc := fun _ => none

/-!
Helper lemmas shared by the claim theorems.
-/

/-- `add_xp` never changes the defeated-enemies list. -/
theorem add_xp_defeated (s : GameState) (n : Nat) :
    ((s.add_xp n).1).defeated_enemies = s.defeated_enemies := by
  unfold GameState.add_xp
  dsimp only
  split <;> rfl

/-- `use_item` never changes the base defense stat. -/
theorem use_item_defense (reg : ItemRegistry) (s : GameState) (item_id : String) :
    (Player.use_item reg s item_id).2.defense = s.defense := by
  unfold Player.use_item GameState.heal
  repeat' split <;> try rfl

/-- `use_item` never changes the defeated-enemies list. -/
theorem use_item_defeated (reg : ItemRegistry) (s : GameState) (item_id : String) :
    (Player.use_item reg s item_id).2.defeated_enemies = s.defeated_enemies := by
  unfold Player.use_item GameState.heal
  repeat' split <;> try rfl

/-- `equip` never changes the defeated-enemies list. -/
theorem equip_defeated (reg : ItemRegistry) (s : GameState) (item_id : String) :
    (Player.equip reg s item_id).2.defeated_enemies = s.defeated_enemies := by
  unfold Player.equip
  repeat' split <;> try rfl

/-- `set_flag` never changes the defeated-enemies list. -/
theorem set_flag_defeated (s : GameState) (k : String) (v : Bool) :
    (s.set_flag k v).defeated_enemies = s.defeated_enemies := rfl

/-- Movement never changes the defeated-enemies list. -/
theorem cmd_move_defeated (w : WorldMap) (s : GameState) (d : String) :
    ((cmd_move w s d).2).defeated_enemies = s.defeated_enemies := by
  unfold cmd_move GameState.set_flag
  repeat first | rfl | split | dsimp only

/-- Battle victory appends exactly the defeated enemy's id to the
defeated-enemies list. -/
theorem victory_defeated (s : GameState) (e : Enemy) :
    (victory_update s e).defeated_enemies = s.defeated_enemies ++ [e.enemy_id] := by
  unfold victory_update
  rw [set_flag_defeated]
  simp [add_xp_defeated]

/-- A key found in the left part of an appended association list is looked
up there, mirroring that a dict never holds a duplicate key. -/
theorem lookup_append_isSome {β : Type} (l₁ l₂ : List (String × β)) (k : String)
    (h : (l₁.lookup k).isSome = true) : (l₁ ++ l₂).lookup k = l₁.lookup k := by
  induction l₁ with
  | nil => simp [List.lookup] at h
  | cons p t ih =>
    obtain ⟨a, b⟩ := p
    by_cases hk : (k == a) = true
    · simp [List.lookup, hk]
    · simp only [List.cons_append, List.lookup, hk] at h ⊢
      simp only [Bool.false_eq_true] at *
      exact ih h

/-- A defeated enemy id never survives the alive-enemy filter. -/
theorem mem_alive (room : Room) (s : GameState) (eid : String)
    (h : eid ∈ s.defeated_enemies) : eid ∉ alive_enemies room s := by
  simp [alive_enemies, List.mem_filter]
  intro _
  simpa using h

/-- Deserializing the serialized form of any state restores it exactly. -/
theorem to_from_aux (s : GameState) : GameState.from_dict s.to_dict = s := rfl

/-- Keys appended after the serialized fields never affect
deserialization: every field key is already bound in the serialized
prefix. -/
theorem from_dict_append (s : GameState) (extras : Doc) :
    GameState.from_dict (s.to_dict ++ extras) = GameState.from_dict s.to_dict := by
  unfold GameState.from_dict dStr dNat dOptStr dListStr dFlags
  rw [lookup_append_isSome s.to_dict extras "player_name" rfl,
    lookup_append_isSome s.to_dict extras "current_room" rfl,
    lookup_append_isSome s.to_dict extras "hp" rfl,
    lookup_append_isSome s.to_dict extras "max_hp" rfl,
    lookup_append_isSome s.to_dict extras "attack" rfl,
    lookup_append_isSome s.to_dict extras "defense" rfl,
    lookup_append_isSome s.to_dict extras "level" rfl,
    lookup_append_isSome s.to_dict extras "xp" rfl,
    lookup_append_isSome s.to_dict extras "xp_to_level" rfl,
    lookup_append_isSome s.to_dict extras "gold" rfl,
    lookup_append_isSome s.to_dict extras "inventory" rfl,
    lookup_append_isSome s.to_dict extras "equipped_weapon" rfl,
    lookup_append_isSome s.to_dict extras "equipped_armor" rfl,
    lookup_append_isSome s.to_dict extras "flags" rfl,
    lookup_append_isSome s.to_dict extras "defeated_enemies" rfl]

/-!
Claim theorems.
-/

/-- Claim C1, counterexample: with iron armor equipped (defense bonus 3,
base defense 5) and an enemy of attack 8, the enemy turn after a failed
flee deals `max(1, 8 - 5) = 3` damage, not the claimed
`max(1, 8 - player_effective_defense) = max(1, 8 - 8) = 1`:
`GameState.take_damage` subtracts only the base defense stat. -/
theorem c1_counterexample :
    ((bX.player_turn regX CombatAction.flee_failed).enemy_turn).2
      ≠ max 1 (bX.enemy.attack - effective_defense regX bX.state) := by
  decide

/-- Claim C1 (amended): on every enemy turn the damage the player actually
takes equals `max(1, d - base_defense)` where `d = enemy.attack`, halved by
floor division exactly when the player chose Defend on the immediately
preceding player turn; the halving and the defense subtraction are two
separate sequential steps, and the hp update applies the resulting damage
afterwards (`hp = max(0, hp - actual)`). -/
theorem c1_enemy_turn_two_step (reg : ItemRegistry) (b : Battle) (a : CombatAction) :
    ((b.player_turn reg a).enemy_turn).2
        = max 1 ((if a.isDefend then b.enemy.attack / 2 else b.enemy.attack) - b.state.defense)
    ∧ ((b.player_turn reg a).enemy_turn).1.state.hp
        = max 0 ((b.player_turn reg a).state.hp - ((b.player_turn reg a).enemy_turn).2) := by
  refine ⟨?_, rfl⟩
  cases a with
  | attack => rfl
  | defend => rfl
  | use_item item_id =>
    simp [Battle.player_turn, Battle.enemy_turn, GameState.take_damage,
      CombatAction.isDefend, use_item_defense]
  | flee_failed => rfl

/-- Claim C2, counterexample: `turn_count` is incremented at the head of
the battle loop, so the first player turn already sees `turn_count = 1` and
its flee success probability is `0.55`, not the claimed `0.5`. -/
theorem c2_counterexample :
    fleeChance ((Battle.init sX eX).start_turn).turn_count ≠ 0.5 := by
  norm_num [fleeChance, Battle.init, Battle.start_turn]

/-- Claim C2 (amended): the flee success probability equals
`0.5 + 0.05 * turn_count` and is monotonically non-decreasing over
successive turns; on the first player turn of a battle `turn_count = 1` and
the success probability is exactly `0.55`. -/
theorem c2_flee_chance :
    (∀ t : Nat, fleeChance t = 0.5 + (t : ℚ) * 0.05)
    ∧ (∀ t t' : Nat, t ≤ t' → fleeChance t ≤ fleeChance t')
    ∧ (∀ (s : GameState) (e : Enemy), ((Battle.init s e).start_turn).turn_count = 1)
    ∧ fleeChance 1 = 0.55 := by
  refine ⟨fun t => rfl, fun t t' h => ?_, fun s e => rfl, by norm_num [fleeChance]⟩
  unfold fleeChance
  have ht : (t : ℚ) ≤ (t' : ℚ) := by exact_mod_cast h
  nlinarith

/-- Claim C2, witness of the monotonicity part at turns 3 and 7. -/
theorem c2_flee_chance_witness :
    fleeChance 3 ≤ fleeChance 7 :=
  c2_flee_chance.2.1 3 7 (by norm_num)

/-- Claim C3: when the gained xp reaches the threshold and the surplus
stays below the next threshold, `add_xp` increments the level, carries the
surplus xp, multiplies the threshold by 1.5 (floored), adds 10 max hp with
a full heal, adds 2 attack and 1 defense, and returns `true`; when the
threshold is not reached only xp changes and it returns `false`. -/
theorem c3_add_xp_level (s : GameState) (n : Nat) :
    (s.xp_to_level ≤ s.xp + n →
      s.xp + n - s.xp_to_level < 3 * s.xp_to_level / 2 →
      s.add_xp n =
        ({ s with
            xp := s.xp + n - s.xp_to_level
            level := s.level + 1
            xp_to_level := 3 * s.xp_to_level / 2
            max_hp := s.max_hp + 10
            hp := s.max_hp + 10
            attack := s.attack + 2
            defense := s.defense + 1 }, true))
    ∧ (s.xp + n < s.xp_to_level → s.add_xp n = ({ s with xp := s.xp + n }, false)) := by
  constructor
  · intro h _
    unfold GameState.add_xp
    dsimp only
    rw [if_pos h]
  · intro h
    unfold GameState.add_xp
    dsimp only
    rw [if_neg (by omega)]

/-- Claim C3, witness: the default state gains 150 xp and levels up once
(xp 50, threshold 150, hp 110/110, attack 12, defense 6), while gaining
30 xp only moves xp. -/
theorem c3_add_xp_level_witness :
    sInit.add_xp 150 =
      ({ sInit with
          xp := sInit.xp + 150 - sInit.xp_to_level
          level := sInit.level + 1
          xp_to_level := 3 * sInit.xp_to_level / 2
          max_hp := sInit.max_hp + 10
          hp := sInit.max_hp + 10
          attack := sInit.attack + 2
          defense := sInit.defense + 1 }, true)
    ∧ sInit.add_xp 30 = ({ sInit with xp := sInit.xp + 30 }, false) :=
  ⟨(c3_add_xp_level sInit 150).1 (by decide) (by decide),
   (c3_add_xp_level sInit 30).2 (by decide)⟩

/-- Claim C4: serializing any Progress State with `to_dict` and
deserializing the document with `from_dict` restores every field
exactly. -/
theorem c4_save_roundtrip (s : GameState) : GameState.from_dict s.to_dict = s :=
  to_from_aux s

/-- Claim C5: a player attack deals exactly
`max(1, effective_attack - enemy_defense)` damage, where the effective
attack is the base attack stat plus the equipped weapon's bonus (and just
the base stat with no weapon or a missing template), and every damage
application on either side is at least 1. -/
theorem c5_attack_damage :
    (∀ (reg : ItemRegistry) (b : Battle),
        (b.do_attack reg).2 = max 1 (effective_attack reg b.state - b.enemy.defense)
        ∧ 1 ≤ (b.do_attack reg).2)
    ∧ (∀ (reg : ItemRegistry) (s : GameState),
        s.equipped_weapon = none → effective_attack reg s = s.attack)
    ∧ (∀ (reg : ItemRegistry) (s : GameState) (wid : String),
        s.equipped_weapon = some wid → reg wid = none → effective_attack reg s = s.attack)
    ∧ (∀ (reg : ItemRegistry) (s : GameState) (wid : String) (w : Item),
        s.equipped_weapon = some wid → reg wid = some w →
        effective_attack reg s = s.attack + w.attack_bonus)
    ∧ (∀ (e : Enemy) (n : Nat), 1 ≤ (e.take_damage n).2)
    ∧ (∀ (s : GameState) (n : Nat), 1 ≤ (s.take_damage n).2) := by
  refine ⟨fun reg b => ⟨rfl, le_max_left 1 _⟩, ?_, ?_, ?_, fun e n => le_max_left 1 _,
    fun s n => le_max_left 1 _⟩
  · intro reg s h
    simp [effective_attack, h]
  · intro reg s wid h hr
    simp [effective_attack, h, hr]
  · intro reg s wid w h hr
    simp [effective_attack, h, hr]

/-- Claim C5, witness: the concrete battle, and the iron sword adding its
attack bonus. -/
theorem c5_attack_damage_witness :
    (bX.do_attack regX).2 = max 1 (effective_attack regX bX.state - bX.enemy.defense)
    ∧ effective_attack regX { sX with equipped_weapon := some "iron_sword" }
        = sX.attack + ironSword.attack_bonus :=
  ⟨(c5_attack_damage.1 regX bX).1,
   c5_attack_damage.2.2.2.1 regX _ "iron_sword" ironSword rfl rfl⟩

/-- Claim C6: a battle victory records the enemy id in
`defeated_enemies`; no gameplay state operation ever removes an id from
that list; and a recorded id never passes a room's alive-enemy filter, so
it can never trigger or be targeted by combat again in the session. -/
theorem c6_defeated_permanent :
    (∀ (s : GameState) (e : Enemy), e.enemy_id ∈ (victory_update s e).defeated_enemies)
    ∧ (∀ (reg : ItemRegistry) (op : Op) (s : GameState) (eid : String),
        eid ∈ s.defeated_enemies → eid ∈ (Op.apply reg op s).defeated_enemies)
    ∧ (∀ (room : Room) (s : GameState) (eid : String),
        eid ∈ s.defeated_enemies → eid ∉ alive_enemies room s) := by
  refine ⟨?_, ?_, mem_alive⟩
  · intro s e
    rw [victory_defeated]
    simp
  · intro reg op s eid h
    cases op <;> simp only [Op.apply]
    case take_damage n => exact h
    case heal n => exact h
    case add_xp n => rw [add_xp_defeated]; exact h
    case set_flag k v => exact h
    case add_gold n => exact h
    case add_item i => exact h
    case remove_item i => exact h
    case use_item i => rw [use_item_defeated]; exact h
    case equip i => rw [equip_defeated]; exact h
    case unequip_weapon => exact h
    case unequip_armor => exact h
    case victory e => rw [victory_defeated]; exact List.mem_append_left _ h
    case move w d => rw [cmd_move_defeated]; exact h

/-- Claim C6, witness: defeating the goblin records it, a later operation
keeps it recorded, and the goblin den's alive filter excludes it. -/
theorem c6_defeated_permanent_witness :
    eX.enemy_id ∈ (victory_update sX eX).defeated_enemies
    ∧ "goblin" ∈ (Op.apply regX (Op.set_flag "met_king" true) sDef).defeated_enemies
    ∧ "goblin" ∉ alive_enemies roomDen sDef :=
  ⟨c6_defeated_permanent.1 sX eX,
   c6_defeated_permanent.2.1 regX (Op.set_flag "met_king" true) sDef "goblin" (by decide),
   c6_defeated_permanent.2.2 roomDen sDef "goblin" (by decide)⟩

/-- Claim C7: every hp-writing operation preserves `hp ≤ max_hp` (hp is a
natural number, so `0 ≤ hp` holds throughout): `take_damage` only lowers
hp, `heal` clamps at `max_hp` and returns the clamped amount actually
healed, and a level-up sets hp to the new `max_hp`. -/
theorem c7_hp_invariant (s : GameState) (h : s.hp ≤ s.max_hp) :
    (∀ n, ((s.take_damage n).1).hp ≤ ((s.take_damage n).1).max_hp)
    ∧ (∀ n, ((s.heal n).1).hp ≤ ((s.heal n).1).max_hp
        ∧ (s.heal n).2 = min (s.hp + n) s.max_hp - s.hp)
    ∧ (∀ n, ((s.add_xp n).1).hp ≤ ((s.add_xp n).1).max_hp)
    ∧ (∀ n, (s.add_xp n).2 = true → ((s.add_xp n).1).hp = ((s.add_xp n).1).max_hp) := by
  refine ⟨fun n => ?_, fun n => ⟨?_, rfl⟩, fun n => ?_, fun n => ?_⟩
  · simp only [GameState.take_damage]
    omega
  · simp only [GameState.heal]
    exact min_le_right _ _
  · unfold GameState.add_xp
    dsimp only
    split
    · exact le_rfl
    · exact h
  · unfold GameState.add_xp
    dsimp only
    split
    · intro _
      rfl
    · intro h2
      simp at h2

/-- Claim C7, witness: the default state after massive damage, a partial
heal, and a level-up. -/
theorem c7_hp_invariant_witness :
    ((sInit.take_damage 250).1).hp ≤ ((sInit.take_damage 250).1).max_hp
    ∧ ((sInit.heal 50).1).hp ≤ ((sInit.heal 50).1).max_hp
    ∧ ((sInit.add_xp 120).1).hp = ((sInit.add_xp 120).1).max_hp :=
  ⟨(c7_hp_invariant sInit (by decide)).1 250,
   ((c7_hp_invariant sInit (by decide)).2.1 50).1,
   (c7_hp_invariant sInit (by decide)).2.2.2 120 (by decide)⟩

/-- Claim C8: moving through a locked exit whose required flag is unset
(or absent) yields the exit's lock message and leaves the whole Progress
State unchanged; an exit that is unlocked, or locked with its required
flag set, is accessible. -/
theorem c8_locked_exit :
    (∀ (world : WorldMap) (s : GameState) (direction : String) (room : Room) (exit_obj : Exit),
        world s.current_room = some room →
        room.get_exit direction = some exit_obj →
        exit_obj.locked = true →
        (∀ f, exit_obj.required_flag = some f → (s.flags.lookup f).getD false = false) →
        cmd_move world s direction = (MoveOutcome.locked exit_obj.lock_message, s))
    ∧ (∀ (exit_obj : Exit) (flags : List (String × Bool)),
        exit_obj.locked = false → exit_obj.is_accessible flags = true)
    ∧ (∀ (exit_obj : Exit) (flags : List (String × Bool)) (f : String),
        exit_obj.required_flag = some f → (flags.lookup f).getD false = true →
        exit_obj.is_accessible flags = true) := by
  refine ⟨?_, ?_, ?_⟩
  · intro world s direction room exit_obj hroom hexit hlocked hflags
    have hacc : exit_obj.is_accessible s.flags = false := by
      unfold Exit.is_accessible
      rw [hlocked]
      cases hrf : exit_obj.required_flag with
      | none => simp
      | some f => simp [hflags f hrf]
    unfold cmd_move
    rw [hroom]
    dsimp only
    rw [hexit]
    dsimp only
    rw [hacc]
    rfl
  · intro exit_obj flags hl
    unfold Exit.is_accessible
    rw [hl]
    rfl
  · intro exit_obj flags f hrf hflag
    cases hl : exit_obj.locked with
    | false => simp [Exit.is_accessible, hl]
    | true => simp [Exit.is_accessible, hl, hrf, hflag]

/-- Claim C8, witness: moving north through the locked gate without the
`gate_key` flag returns the lock message and the unchanged state, while
the gate is accessible once the flag is set. -/
theorem c8_locked_exit_witness :
    cmd_move worldX sHall "north" = (MoveOutcome.locked gateExit.lock_message, sHall)
    ∧ gateExit.is_accessible [("gate_key", true)] = true :=
  ⟨c8_locked_exit.1 worldX sHall "north" roomHall gateExit rfl rfl rfl
      (fun f hf => by cases hf; rfl),
   c8_locked_exit.2.2 gateExit [("gate_key", true)] "gate_key" rfl rfl⟩

/-- Claim C9: loading a slot whose file does not exist yields the
distinguished `none` outcome, and a document carrying keys beyond the
Progress State fields deserializes to the same state as without them. -/
theorem c9_load_tolerant :
    (∀ (fs : String → Option Doc) (slot : String),
        fs slot = none → GameState.load fs slot = none)
    ∧ (∀ (s : GameState) (extras : Doc),
        (∀ p ∈ extras, p.1 ∉ gameStateFieldKeys) →
        GameState.from_dict (s.to_dict ++ extras) = s) := by
  constructor
  · intro fs slot h
    unfold GameState.load
    rw [h]
  · intro s extras _
    rw [from_dict_append]
    exact to_from_aux s

/-- Claim C9, witness: an empty save directory, and a document with an
extra `version` key. -/
theorem c9_load_tolerant_witness :
    GameState.load fsEmpty "save1" = none
    ∧ GameState.from_dict (sX.to_dict ++ [("version", PyVal.vNat 2)]) = sX :=
  ⟨c9_load_tolerant.1 fsEmpty "save1" rfl,
   c9_load_tolerant.2 sX [("version", PyVal.vNat 2)] (by decide)⟩

/-- Claim C10: successfully equipping a weapon (resp. armor) from
inventory overwrites exactly the matching slot with the item id — the new
state is the old one with only that slot changed, so the inventory
sequence, the other slot and every other field are untouched and the item
stays in inventory. -/
theorem c10_equip_frame :
    (∀ (reg : ItemRegistry) (s : GameState) (item_id : String) (item : Item),
        item_id ∈ s.inventory → reg item_id = some item → item.item_type = "weapon" →
        Player.equip reg s item_id = (none, { s with equipped_weapon := some item_id }))
    ∧ (∀ (reg : ItemRegistry) (s : GameState) (item_id : String) (item : Item),
        item_id ∈ s.inventory → reg item_id = some item → item.item_type = "armor" →
        Player.equip reg s item_id = (none, { s with equipped_armor := some item_id })) := by
  constructor
  · intro reg s item_id item hmem hreg ht
    unfold Player.equip
    rw [if_neg (not_not_intro hmem), hreg]
    dsimp only
    rw [if_pos ht]
  · intro reg s item_id item hmem hreg ht
    unfold Player.equip
    rw [if_neg (not_not_intro hmem), hreg]
    dsimp only
    rw [if_neg (by rw [ht]; decide), if_pos ht]

/-- Claim C10, witness: equipping the iron sword and then the iron armor
from the concrete inventory (the armor slot already held an item and is
overwritten with the same id). -/
theorem c10_equip_frame_witness :
    Player.equip regX sX "iron_sword" = (none, { sX with equipped_weapon := some "iron_sword" })
    ∧ Player.equip regX sX "iron_armor" = (none, { sX with equipped_armor := some "iron_armor" }) :=
  ⟨c10_equip_frame.1 regX sX "iron_sword" ironSword (by decide) rfl rfl,
   c10_equip_frame.2 regX sX "iron_armor" ironArmor (by decide) rfl rfl⟩
